import Mathlib

/-!
Shallow embedding of the spotiDL-api backend (`src/app.py`) together with the
two "core" components the specification describes (credential derivation and
format selection, which live in repository variants outside `src/`).

Python strings are embedded as Lean `String`; Python `str.split`,
`in` (substring test), `str.strip` and `str.replace` are embedded by the
executable helpers below, which mirror CPython's left-to-right,
non-overlapping semantics for a non-empty separator.
-/

namespace SpotiDL

/-- One step bound by fuel: split `l` on the (non-empty) separator `sep`,
accumulating the current fragment in reverse in `cur`.  Fuel is the length of
the remaining list, which suffices because every step consumes at least one
character. -/
def splitGo (sep : List Char) : Nat → List Char → List Char → List (List Char)
  | _, cur, [] => [cur.reverse]
  | 0, cur, l => [cur.reverse ++ l]
  | n + 1, cur, c :: rest =>
    if sep.isPrefixOf (c :: rest) then
      cur.reverse :: splitGo sep n [] (List.drop (sep.length - 1) rest)
    else
      splitGo sep n (c :: cur) rest

/-- Python `s.split(sep)` for a non-empty separator `sep`. -/
def pySplit (s sep : String) : List String :=
  (splitGo sep.data s.data.length [] s.data).map (fun l => ⟨l⟩)

/-- Python `sep in s` (substring test), for a non-empty `sep`:
`s` contains `sep` exactly when splitting yields at least two parts. -/
def pyContains (s sep : String) : Bool :=
  2 ≤ (pySplit s sep).length

/-- Python `s.strip()`: drop whitespace at both ends. -/
def pyStrip (s : String) : String :=
  ⟨((s.data.dropWhile Char.isWhitespace).reverse.dropWhile Char.isWhitespace).reverse⟩

/-- Python `s.replace(a, b)` for a non-empty `a`: rejoin the split parts
with `b`. -/
def pyReplace (s a b : String) : String :=
  String.intercalate b (pySplit s a)

/-- Render `n` with at least two digits, Python's `f"{n:02d}"` for `n ≥ 0`. -/
def pad2 (n : Nat) : String :=
  if n < 10 then "0" ++ toString n else toString n

/-- Embeds `format_duration` (`src/app.py` lines 106–110): convert
milliseconds to a `"minutes:seconds"` string, where
`seconds = int((ms / 1000) % 60)` and `minutes = int((ms / (1000*60)) % 60)`.
The Python float arithmetic is exact truncating division on the integer
inputs in range, embedded as `Nat` division and remainder. -/
def format_duration (ms : Nat) : String :=
  let seconds := (ms / 1000) % 60
  let minutes := (ms / (1000 * 60)) % 60
  toString minutes ++ ":" ++ pad2 seconds

/-- True when `s` is a non-empty all-digit string. -/
def isDigits (s : String) : Bool :=
  s ≠ "" && s.data.all (fun c => c.isDigit)

/-- Numeric value of an all-digit string. -/
def digitsToNat (s : String) : Nat :=
  s.data.foldl (fun a c => a * 10 + (c.toNat - 48)) 0

/-- Modelled from the spec: no string→seconds duration parser exists in
`src/app.py`; §3 requires the derived seconds field to be recomputed from the
`"H:MM:SS"`/`"M:SS"` string form, and §8 fixes `"3:45" → 225`,
`"1:02:03" → 3723`, and that malformed strings (e.g. `"abc"`) yield `0`
seconds rather than raising. -/
def parse_duration (s : String) : Nat :=
  let parts := pySplit s ":"
  if parts.all isDigits then
    match parts with
    | [m, sec] => digitsToNat m * 60 + digitsToNat sec
    | [h, m, sec] => digitsToNat h * 3600 + digitsToNat m * 60 + digitsToNat sec
    | _ => 0
  else 0

/-! ### SHA-1 (for the spec-modelled credential derivation, §4.1)

Machine words are `Nat` reduced modulo `2 ^ 32`; a message is its list of
bytes (`Nat < 256`). -/

/-- Reduce modulo `2 ^ 32`. -/
def w32 (x : Nat) : Nat := x % 4294967296

/-- Rotate a 32-bit word (`x < 2 ^ 32`) left by `n` bits (`n ≤ 32`). -/
def rotl (n x : Nat) : Nat := w32 (x * 2 ^ n) + x / 2 ^ (32 - n)

/-- Bitwise complement of a 32-bit word. -/
def compl32 (x : Nat) : Nat := 4294967295 - x

/-- Big-endian bytes (little index = most significant) of `x` on `n` bytes. -/
def beBytes (n x : Nat) : List Nat :=
  (List.range n).map (fun i => x / 256 ^ (n - 1 - i) % 256)

/-- SHA-1 padding: append `0x80`, zeros up to 56 mod 64, then the 64-bit
big-endian bit length. -/
def sha1pad (msg : List Nat) : List Nat :=
  msg ++ 128 :: List.replicate ((119 - msg.length % 64) % 64) 0
      ++ beBytes 8 (8 * msg.length)

/-- Cut a list into 64-byte chunks (fuel-bounded by the list length). -/
def chunksGo : Nat → List Nat → List (List Nat)
  | _, [] => []
  | 0, _ => []
  | n + 1, l => l.take 64 :: chunksGo n (l.drop 64)

/-- The 64-byte chunks of a padded message. -/
def chunks64 (l : List Nat) : List (List Nat) := chunksGo l.length l

/-- Big-endian 32-bit words of a 64-byte chunk. -/
def bytesToWords : List Nat → List Nat
  | b0 :: b1 :: b2 :: b3 :: rest =>
    (((b0 * 256 + b1) * 256 + b2) * 256 + b3) :: bytesToWords rest
  | _ => []

/-- Append `n` extension words: `w[i] = rotl1 (w[i-3] ^ w[i-8] ^ w[i-14] ^ w[i-16])`. -/
def extendWords : Nat → List Nat → List Nat
  | 0, ws => ws
  | n + 1, ws =>
    let L := ws.length
    let nw := rotl 1 ((((ws.getD (L - 3) 0) ^^^ (ws.getD (L - 8) 0)) ^^^
        (ws.getD (L - 14) 0)) ^^^ (ws.getD (L - 16) 0))
    extendWords n (ws ++ [nw])

/-- The SHA-1 state: five 32-bit words. -/
structure Sha1State where
  a : Nat
  b : Nat
  c : Nat
  d : Nat
  e : Nat

/-- One SHA-1 round: round index `i` (0–79), message word `w`. -/
def sha1round (s : Sha1State) (i w : Nat) : Sha1State :=
  let f :=
    if i < 20 then (s.b &&& s.c) ||| (compl32 s.b &&& s.d)
    else if i < 40 then (s.b ^^^ s.c) ^^^ s.d
    else if i < 60 then ((s.b &&& s.c) ||| (s.b &&& s.d)) ||| (s.c &&& s.d)
    else (s.b ^^^ s.c) ^^^ s.d
  let k :=
    if i < 20 then 1518500249
    else if i < 40 then 1859775393
    else if i < 60 then 2400959708
    else 3395469782
  { a := w32 (rotl 5 s.a + f + s.e + k + w), b := s.a, c := rotl 30 s.b,
    d := s.c, e := s.d }

/-- Compress one 64-byte chunk into the running state. -/
def sha1chunk (h : Sha1State) (chunk : List Nat) : Sha1State :=
  let ws := extendWords 64 (bytesToWords chunk)
  let s := (List.zip (List.range 80) ws).foldl
    (fun s p => sha1round s p.1 p.2) h
  { a := w32 (h.a + s.a), b := w32 (h.b + s.b), c := w32 (h.c + s.c),
    d := w32 (h.d + s.d), e := w32 (h.e + s.e) }

/-- Lowercase hexadecimal digit. -/
def hexDigit (n : Nat) : Char :=
  if n < 10 then Char.ofNat (48 + n) else Char.ofNat (87 + n)

/-- Lowercase 8-digit hexadecimal rendering of a 32-bit word. -/
def wordHex (x : Nat) : List Char :=
  (List.range 8).map (fun i => hexDigit (x / 16 ^ (7 - i) % 16))

/-- SHA-1 of a byte list, rendered as 40 lowercase hex digits. -/
def sha1hex (msg : List Nat) : String :=
  let h := (chunks64 (sha1pad msg)).foldl sha1chunk
    ⟨1732584193, 4023233417, 2562383102, 271733878, 3285377520⟩
  ⟨wordHex h.a ++ wordHex h.b ++ wordHex h.c ++ wordHex h.d ++ wordHex h.e⟩

/-- Bytes of an ASCII string (the signing inputs are ASCII, so the code-point
list coincides with the UTF-8 bytes). -/
def strBytes (s : String) : List Nat := s.data.map Char.toNat

/-! ### CredentialDeriver (spec-modelled, §4.1) -/

/-- A cookie jar: cookie name to cookie value, in file order. -/
def CookieJar := List (String × String)

/-- Modelled from the spec: the "fixed priority list of 2–3 known aliases for
the same logical secret" (§4.1); §8's golden test names `SAPISID`, and the
remaining aliases are the secure-cookie variants of the same secret. -/
def sessionAliases : List String :=
  ["SAPISID", "__Secure-3PAPISID", "__Secure-1PAPISID"]

/-- Modelled from the spec: "the first present aliased cookie value found by
priority order" (§4.1). -/
def findSecret (jar : CookieJar) : Option String :=
  sessionAliases.findSome? (fun a => jar.lookup a)

/-- Modelled from the spec (§4.1): `CredentialDeriver` is absent from
`src/app.py`; it lives in repository variants outside `src/`.  Take Unix time
`T`, form the byte string `"{T} {secret} {origin}"` with the first present
aliased cookie value as `{secret}`, SHA-1 it, render lowercase hex, and
produce `Authorization = "SAPISIDHASH {T}_{digest}"`.  A jar with no
recognized session cookie yields `none` (`MissingCredentialError`). -/
def deriveAuthorization (jar : CookieJar) (origin : String) (T : Nat) :
    Option String :=
  match findSecret jar with
  | none => none
  | some secret =>
    some ("SAPISIDHASH " ++ toString T ++ "_" ++
      sha1hex (strBytes (toString T ++ " " ++ secret ++ " " ++ origin)))

/-! ### FormatSelector (spec-modelled, §4.2) -/

/-- Modelled from the spec (§3): one candidate media stream as advertised by
the upstream extractor.  `"none"` is the sentinel for an absent audio/video
track; `url` is `none` when the resolved URL is absent. -/
structure FormatDescriptor where
  ext : String
  acodec : String
  vcodec : String
  abr : Nat
  height : Nat
  url : Option String
deriving DecidableEq

/-- Modelled from the spec (§3): eligibility configuration — container
allow-list (`none` = no restriction) and required track presence. -/
structure SelectionPolicy where
  allowedExts : Option (List String)
  requireAudio : Bool
  requireVideo : Bool

/-- Modelled from the spec (§4.2 Step 1): a descriptor is eligible when its
URL is present, its container is in the allow-list, and the required tracks
are present. -/
def eligible (p : SelectionPolicy) (d : FormatDescriptor) : Bool :=
  d.url.isSome &&
  (match p.allowedExts with
   | none => true
   | some l => l.contains d.ext) &&
  (!p.requireAudio || d.acodec ≠ "none") &&
  (!p.requireVideo || d.vcodec ≠ "none")

/-- Ranking key (§4.2 Step 2's example chain): combined-track presence, then
average bitrate, then height. -/
def rankOf (d : FormatDescriptor) : Nat × Nat × Nat :=
  ((if d.acodec ≠ "none" && d.vcodec ≠ "none" then 1 else 0), d.abr, d.height)

/-- Strict lexicographic "ranks higher than" on ranking keys; ties are not
higher, so a left fold keeps the first-encountered descriptor (stability). -/
def rankGt (x y : Nat × Nat × Nat) : Bool :=
  if y.1 < x.1 then true
  else if x.1 = y.1 then
    if y.2.1 < x.2.1 then true
    else if x.2.1 = y.2.1 then decide (y.2.2 < x.2.2)
    else false
  else false

/-- Modelled from the spec (§4.2): `FormatSelector` is absent from
`src/app.py` (the `src` variant delegates selection to the extractor via the
`'bestaudio/best'` option, lines 122–133); repository variants outside `src/`
select explicitly.  Filter to the eligible descriptors, then take the
highest-ranked one, first-encountered winning ties. -/
def selectFormat (p : SelectionPolicy) (fmts : List FormatDescriptor) :
    Option FormatDescriptor :=
  match fmts.filter (fun d => eligible p d) with
  | [] => none
  | x :: xs => some (xs.foldl (fun b c => if rankGt (rankOf c) (rankOf b) then c else b) x)

/-! ### `src/app.py` embedding: cookie bootstrap and process state -/

/-- The process environment variables read by `setup_cookies`
(`os.getenv`; `none` = unset). -/
structure Env where
  COOKIE_FILE : Option String
  YOUTUBE_COOKIES_BASE64 : Option String

/-- The file-system and runtime facts `setup_cookies` consults:
path existence, base64 decoding (which may raise), the name of the temporary
cookie file it would create, and the working directory. -/
structure Fs where
  pathExists : String → Bool
  b64decode : String → Except String String
  tempName : String
  cwd : String

/-- Embeds `setup_cookies` (`src/app.py` lines 32–72): prefer the
`COOKIE_FILE` env path when it exists, else decode `YOUTUBE_COOKIES_BASE64`
into a temp file (decoding errors fall through), else the first existing
common path, else `None`. -/
def setup_cookies (env : Env) (fs : Fs) : Option String :=
  let cfp := env.COOKIE_FILE.getD ""
  if cfp ≠ "" && fs.pathExists cfp then some cfp
  else
    let b64 := env.YOUTUBE_COOKIES_BASE64.getD ""
    let afterB64 : Option String :=
      if b64 ≠ "" then
        match fs.b64decode b64 with
        | .ok _ => some fs.tempName
        | .error _ => none
      else none
    match afterB64 with
    | some p => some p
    | none =>
      let commonPaths := ["/etc/secrets/cookies.txt",
        fs.cwd ++ "/cookies.txt", fs.cwd ++ "/cookies/cookies.txt"]
      match commonPaths.find? (fun p => fs.pathExists p) with
      | some p => some p
      | none => none

/-- The module-level state of `src/app.py`: the global `COOKIE_FILE`
(line 75), assigned exactly once at import time. -/
structure ProcessState where
  COOKIE_FILE : Option String

/-- Embeds module import (`src/app.py` line 75):
`COOKIE_FILE = setup_cookies()` runs once at process start. -/
def startProcess (env : Env) (fs : Fs) : ProcessState :=
  { COOKIE_FILE := setup_cookies env fs }

/-- The cookie material a download request issued at Unix time `t` uses:
`download_full_song` (line 136) reads the global `COOKIE_FILE`; no code path
recomputes it, so the request time is ignored. -/
def cookieMaterialForRequest (s : ProcessState) (_t : Nat) : Option String :=
  s.COOKIE_FILE

/-! ### `src/app.py` embedding: the background downloader -/

/-- The `yt_dlp` option dictionary fields `download_full_song` manipulates
(lines 122–148, 170–178).  `cookiefile = none` models the key being absent;
the Boolean fallback flags are absent-or-`False` until set. -/
structure YdlOpts where
  format : String
  outtmpl : String
  quiet : Bool
  cookiefile : Option String
  extract_flat : Bool
  ignoreerrors : Bool
  no_check_certificate : Bool
  prefer_ffmpeg : Bool
  geo_bypass : Bool
deriving DecidableEq

/-- The base option dictionary of lines 122–133. -/
def baseOpts (download_id : String) : YdlOpts :=
  { format := "bestaudio/best",
    outtmpl := "/tmp/" ++ download_id ++ "_%(title)s.%(ext)s",
    quiet := true, cookiefile := none, extract_flat := false,
    ignoreerrors := false, no_check_certificate := false,
    prefer_ffmpeg := false, geo_bypass := false }

/-- The fallback `update` of lines 142–148 (also the retry update of
lines 172–178). -/
def fallbackUpdate (o : YdlOpts) : YdlOpts :=
  { o with
    extract_flat := false, ignoreerrors := true,
    no_check_certificate := true, prefer_ffmpeg := true, geo_bypass := true }

/-- The option dictionary of the authenticated path (line 138): the base
options with `cookiefile` set. -/
def authOpts (download_id cf : String) : YdlOpts :=
  { baseOpts download_id with cookiefile := some cf }

/-- One entry of the `download_progress` dictionary: the keys
`download_full_song`, `progress_hook` and the routes read or write.  A
missing key is `none`. -/
structure Progress where
  status : Option String := none
  progressPct : Option Nat := none
  filename : Option String := none
  error : Option String := none

/-- Make `{}` (the fresh `defaultdict` entry) available as `default`. -/
instance : Inhabited Progress := ⟨{}⟩

/-- The `download_progress` store (line 29): map from download id to its
progress dictionary; `none` = id absent. -/
def ProgressMap := String → Option Progress

/-- Mutate the entry for `id`, creating the `defaultdict` empty entry first
when absent (Python `download_progress[id][k] = v`). -/
def setP (m : ProgressMap) (id : String) (f : Progress → Progress) : ProgressMap :=
  fun k => if k = id then some (f ((m id).getD {})) else m k

/-- Embeds `download_full_song` (`src/app.py` lines 116–196).  Inputs beyond
the Python arguments: `cookieAvail` is `some path` exactly when the global
`COOKIE_FILE` is set and exists on disk (line 136), and `attempt` is the
oracle for `ydl.download([...])` under a given option dictionary, returning
`.error msg` when `yt_dlp` raises.  Returns the updated progress store and
the list of option dictionaries attempted, in order. -/
def download_full_song (cookieAvail : Option String)
    (attempt : YdlOpts → Except String Unit) (download_id : String)
    (m : ProgressMap) : ProgressMap × List YdlOpts :=
  let opts := match cookieAvail with
    | some cf => authOpts download_id cf
    | none => fallbackUpdate (baseOpts download_id)
  let m1 := setP m download_id
    (fun p => { p with status := some "searching", progressPct := some 0 })
  match attempt opts with
  | .ok _ =>
    (setP m1 download_id
      (fun p => { p with status := some "completed", progressPct := some 100 }),
     [opts])
  | .error e1 =>
    match opts.cookiefile with
    | some _ =>
      let retryOpts := fallbackUpdate { opts with cookiefile := none }
      match attempt retryOpts with
      | .ok _ =>
        (setP m1 download_id
          (fun p => { p with status := some "completed", progressPct := some 100 }),
         [opts, retryOpts])
      | .error e2 =>
        (setP m1 download_id
          (fun p => { p with
            status := some "error",
            error := some ("Download failed: " ++ e2) }),
         [opts, retryOpts])
    | none =>
      (setP m1 download_id
        (fun p => { p with
          status := some "error",
          error := some ("Download failed: " ++ e1) }),
       [opts])

/-! ### `src/app.py` embedding: URL parsing helpers -/

/-- Embeds `detect_spotify_type` (lines 96–104): substring tests in order. -/
def detect_spotify_type (url : String) : Option String :=
  if pyContains url "track" then some "track"
  else if pyContains url "album" then some "album"
  else if pyContains url "playlist" then some "playlist"
  else none

/-- The common branch body of `extract_spotify_id`:
`parts = url.split(seg); if len(parts) > 1: return parts[1].split('?')[0]`,
falling through to `None` otherwise. -/
def segAfter (url seg : String) : Option String :=
  match pySplit url seg with
  | _ :: p1 :: _ => some ((pySplit p1 "?").headD "")
  | _ => none

/-- Embeds `extract_spotify_id` (lines 77–94): a URL without
`'spotify.com'` is returned unchanged; otherwise the id is the segment after
`/track/`, `/album/` or `/playlist/` according to `t`, and `None` when the
segment (or a recognized `t`) is missing. -/
def extract_spotify_id (url t : String) : Option String :=
  if pyContains url "spotify.com" then
    if t = "track" then segAfter url "/track/"
    else if t = "album" then segAfter url "/album/"
    else if t = "playlist" then segAfter url "/playlist/"
    else none
  else some url

/-! ### `src/app.py` embedding: HTTP routes

Response shaping of the success payloads is out of scope per the spec (§1);
success bodies carry the upstream blobs verbatim. -/

/-- An HTTP response: a JSON body with a status code, or a sent file. -/
inductive HttpResp where
  | json (code : Nat) (body : String)
  | file (name : String)
deriving DecidableEq

/-- The status code of a response (`send_file` delivers 200). -/
def respCode : HttpResp → Nat
  | .json c _ => c
  | .file _ => 200

/-- One call to the Spotify client `sp` (line 23), recorded for counting
upstream fetches. -/
inductive SpReq where
  | track (id : String)
  | album (id : String)
  | album_tracks (id : String)
  | playlist (id : String)
  | playlist_tracks (id : String)
deriving DecidableEq

/-- The `sp.track(...)` result fields the code reads beyond the opaque
payload: the album id used for the follow-up `sp.album` call (line 247). -/
structure SpTrack where
  album_id : String
  payload : String

/-- The upstream Spotify client as an oracle; `.error` models a raised
`spotipy` exception. -/
structure SpClient where
  track : String → Except String SpTrack
  album : String → Except String String
  album_tracks : String → Except String String
  playlist : String → Except String String
  playlist_tracks : String → Except String String

/-- The parsed JSON body of `POST /api/fetch`. -/
structure FetchBody where
  url : Option String

/-- The metadata phase of `fetch_spotify_data` after validation: the upstream
calls of lines 245–327, with any raised exception caught by the handler's
`except` into a 500 response (lines 329–330). -/
def fetchMeta (t sid : String) (c : SpClient) : HttpResp × List SpReq :=
  if t = "track" then
    match c.track sid with
    | .error e => (.json 500 ("Failed to fetch data: " ++ e), [.track sid])
    | .ok tr =>
      match c.album tr.album_id with
      | .error e =>
        (.json 500 ("Failed to fetch data: " ++ e),
         [.track sid, .album tr.album_id])
      | .ok al =>
        (.json 200 (tr.payload ++ al), [.track sid, .album tr.album_id])
  else if t = "album" then
    match c.album sid with
    | .error e => (.json 500 ("Failed to fetch data: " ++ e), [.album sid])
    | .ok al =>
      match c.album_tracks sid with
      | .error e =>
        (.json 500 ("Failed to fetch data: " ++ e),
         [.album sid, .album_tracks sid])
      | .ok ts => (.json 200 (al ++ ts), [.album sid, .album_tracks sid])
  else
    match c.playlist sid with
    | .error e => (.json 500 ("Failed to fetch data: " ++ e), [.playlist sid])
    | .ok pl =>
      match c.playlist_tracks sid with
      | .error e =>
        (.json 500 ("Failed to fetch data: " ++ e),
         [.playlist sid, .playlist_tracks sid])
      | .ok ts =>
        (.json 200 (pl ++ ts), [.playlist sid, .playlist_tracks sid])

/-- Embeds `fetch_spotify_data` (`POST /api/fetch`, lines 226–330): strip
the URL, 400 on empty / undetected type / missing id, else fetch metadata;
returns the response and the upstream calls made. -/
def fetch_spotify_data (b : FetchBody) (c : SpClient) : HttpResp × List SpReq :=
  let url := pyStrip (b.url.getD "")
  if url = "" then (.json 400 "No URL provided", [])
  else
    match detect_spotify_type url with
    | none =>
      (.json 400 "Invalid Spotify URL. Must be track, album, or playlist", [])
    | some t =>
      let sid := (extract_spotify_id url t).getD ""
      if sid = "" then
        (.json 400 "Could not extract Spotify ID from URL", [])
      else fetchMeta t sid c

/-- The parsed JSON body of `POST /api/download/full/track`. -/
structure DlBody where
  spotify_id : Option String

/-- Embeds `download_full_track` (lines 332–364): 400 when the id is missing
or empty (Python falsy), else one `sp.track` lookup (exceptions → 500) and a
started-response carrying the generated download id (`tid` is the worker
thread ident of line 345). -/
def download_full_track (b : DlBody) (c : SpClient) (tid : Nat) :
    HttpResp × List SpReq :=
  let sid := b.spotify_id.getD ""
  if sid = "" then (.json 400 "No track ID provided", [])
  else
    match c.track sid with
    | .error e => (.json 500 ("Failed to start download: " ++ e), [.track sid])
    | .ok tr =>
      (.json 200 ("full_" ++ sid ++ "_" ++ toString tid ++ ":" ++ tr.payload),
       [.track sid])

/-- Embeds `get_download_progress` (lines 366–369):
`download_progress.get(download_id, {})`; `none` renders as the empty JSON
object `{}`. -/
def get_download_progress (download_id : String) (m : ProgressMap) :
    Option Progress :=
  m download_id

/-- Embeds `download_file` (lines 371–392).  `pathExists` is the
`os.path.exists` oracle and `send` the `send_file` oracle (`.error` = raised
exception, caught into a 500 by lines 391–392).  Returns the response and the
updated progress store. -/
def download_file (download_id : String) (m : ProgressMap)
    (pathExists : String → Bool) (send : String → Except String Unit) :
    HttpResp × ProgressMap :=
  let progress := (m download_id).getD {}
  if progress.status ≠ some "completed" then
    (.json 400 "Download not completed", m)
  else
    let filename :=
      pyReplace (pyReplace (progress.filename.getD "") ".webm" ".mp3")
        ".m4a" ".mp3"
    if !pathExists filename then (.json 404 "File not found", m)
    else
      let m2 : ProgressMap := fun k => if k = download_id then none else m k
      match send filename with
      | .ok _ => (.file filename, m2)
      | .error e => (.json 500 ("Failed to download file: " ++ e), m2)

/-! ### Concrete sample inputs (used to instantiate the theorems) -/

/-- An audio-only selection policy with an `m4a`/`webm` allow-list. -/
def samplePolicy : SelectionPolicy :=
  { allowedExts := some ["m4a", "webm"], requireAudio := true,
    requireVideo := false }

/-- An eligible audio-only descriptor. -/
def sampleDescriptor : FormatDescriptor :=
  { ext := "m4a", acodec := "mp4a.40.2", vcodec := "none", abr := 128,
    height := 0, url := some "https://host/audio.m4a" }

/-- A Spotify client stub whose every call raises. -/
def stubClient : SpClient :=
  { track := fun _ => .error "offline", album := fun _ => .error "offline",
    album_tracks := fun _ => .error "offline",
    playlist := fun _ => .error "offline",
    playlist_tracks := fun _ => .error "offline" }

/-- The empty progress store. -/
def emptyProgress : ProgressMap := fun _ => none

/-- A store holding one completed download with a `.webm` filename. -/
def sampleStore : ProgressMap := fun k =>
  if k = "d1" then
    some { status := some "completed", progressPct := some 100,
           filename := some "/tmp/d1_song.webm", error := none }
  else none

/-- A download attempt oracle that always succeeds. -/
def alwaysOk : YdlOpts → Except String Unit := fun _ => .ok ()

/-- A download attempt oracle that always raises. -/
def alwaysFail : YdlOpts → Except String Unit := fun _ => .error "boom"

end SpotiDL

namespace SpotiDL

/-! ## Theorems -/

set_option maxRecDepth 10000

/-- A left fold that at each step keeps either the accumulator or the next
element yields an element of `x :: xs`. -/
theorem mem_foldl_choice {α : Type} (g : α → α → Bool) (xs : List α) (x : α) :
    xs.foldl (fun b c => if g c b then c else b) x ∈ x :: xs := by
  induction xs generalizing x with
  | nil => simp
  | cons c cs ih =>
    simp only [List.foldl_cons]
    rcases List.mem_cons.mp (ih (if g c x then c else x)) with h1 | h1
    · rw [h1]
      by_cases hg : g c x
      · simp [hg]
      · simp [hg]
    · exact List.mem_cons_of_mem _ (List.mem_cons_of_mem _ h1)

/-- C1: for every descriptor list and selection policy, `selectFormat`
returns `none` (`NoEligibleFormat`) on the empty list, and whenever it
returns a descriptor, that descriptor comes from the input, satisfies the
policy's eligibility filter, and in particular has a present URL. -/
theorem selectFormat_sound :
    (∀ p : SelectionPolicy, selectFormat p [] = none) ∧
    (∀ (p : SelectionPolicy) (fs : List FormatDescriptor) (d : FormatDescriptor),
      selectFormat p fs = some d →
        eligible p d = true ∧ d ∈ fs ∧ d.url ≠ none) := by
  constructor
  · intro p; rfl
  · intro p fs d h
    unfold selectFormat at h
    cases hf : fs.filter (fun d => eligible p d) with
    | nil => rw [hf] at h; exact absurd h (by simp)
    | cons x xs =>
      rw [hf] at h
      have hd := (Option.some.injEq _ _).mp h
      have hmem : d ∈ x :: xs := by
        rw [← hd]
        exact mem_foldl_choice _ xs x
      rw [← hf] at hmem
      have hfm := List.mem_filter.mp hmem
      refine ⟨hfm.2, hfm.1, ?_⟩
      have hurl : d.url.isSome = true := by
        have := hfm.2
        unfold eligible at this
        simp only [Bool.and_eq_true] at this
        exact this.1.1.1
      intro hn
      rw [hn] at hurl
      exact absurd hurl (by simp)

/-- C1 witness: a concrete eligible descriptor is selected from the
singleton list and satisfies the filter. -/
theorem selectFormat_sound_witness :
    eligible samplePolicy sampleDescriptor = true ∧
    sampleDescriptor ∈ [sampleDescriptor] ∧
    sampleDescriptor.url ≠ none :=
  selectFormat_sound.2 samplePolicy [sampleDescriptor] sampleDescriptor (by decide)

/-- C2: for every jar whose first present aliased session cookie is `s`,
every origin and every timestamp `T`, the derivation produces
`Authorization = "SAPISIDHASH {T}_{digest}"` with the digest the lowercase
SHA-1 hex of the byte string `"{T} {s} {origin}"`; any two jars with the
same first present secret derive identical output (determinism). -/
theorem deriveAuthorization_sha1 (jar : CookieJar) (origin : String)
    (T : Nat) (s : String) (h : findSecret jar = some s) :
    deriveAuthorization jar origin T =
      some ("SAPISIDHASH " ++ toString T ++ "_" ++
        sha1hex (strBytes (toString T ++ " " ++ s ++ " " ++ origin))) ∧
    (∀ jar2 : CookieJar, findSecret jar2 = some s →
      deriveAuthorization jar origin T = deriveAuthorization jar2 origin T) := by
  constructor
  · simp [deriveAuthorization, h]
  · intro jar2 h2
    simp [deriveAuthorization, h, h2]

/-- C2 witness (the spec's golden test, §8): secret `"abc"`, origin
`"https://music.youtube.com"`, timestamp `1000` give the pinned digest. -/
theorem deriveAuthorization_sha1_witness :
    deriveAuthorization [("SAPISID", "abc")] "https://music.youtube.com" 1000 =
      some "SAPISIDHASH 1000_8640d4ab579b2bf127293e0c58d18813f9483ba8" := by
  rw [(deriveAuthorization_sha1 [("SAPISID", "abc")] "https://music.youtube.com"
    1000 "abc" (by decide)).1]
  decide

/-- C3 (divergence evidence): for every environment and file system, the
cookie material a request uses is exactly the value `setup_cookies` computed
at process start, identical for requests at any two times — `src/app.py`
assigns the global `COOKIE_FILE` once at import (line 75) and no code path
recomputes it. -/
theorem cookieMaterial_fixed_at_startup (env : Env) (fs : Fs) (t1 t2 : Nat) :
    cookieMaterialForRequest (startProcess env fs) t1 = setup_cookies env fs ∧
    cookieMaterialForRequest (startProcess env fs) t1 =
      cookieMaterialForRequest (startProcess env fs) t2 :=
  ⟨rfl, rfl⟩

/-- C4: with no usable cookie source (`COOKIE_FILE` unset or missing on
disk), `download_full_song` still proceeds: it performs exactly one download
attempt, using the cookie-less fallback option dictionary, and a successful
attempt completes the download rather than aborting with an error. -/
theorem download_proceeds_unauthenticated
    (attempt : YdlOpts → Except String Unit) (id : String) (m : ProgressMap) :
    (download_full_song none attempt id m).2 = [fallbackUpdate (baseOpts id)] ∧
    (fallbackUpdate (baseOpts id)).cookiefile = none ∧
    (attempt (fallbackUpdate (baseOpts id)) = .ok () →
      ((download_full_song none attempt id m).1 id).map Progress.status =
        some (some "completed")) := by
  have hcf : (fallbackUpdate (baseOpts id)).cookiefile = none := rfl
  refine ⟨?_, rfl, ?_⟩
  · unfold download_full_song
    cases h : attempt (fallbackUpdate (baseOpts id)) <;> simp [h, hcf]
  · intro h
    unfold download_full_song
    simp [h, setP]

/-- C4 witness: with no cookie source and an attempt oracle that succeeds,
the download completes. -/
theorem download_proceeds_unauthenticated_witness :
    ((download_full_song none alwaysOk "d1" emptyProgress).1 "d1").map
      Progress.status = some (some "completed") :=
  (download_proceeds_unauthenticated alwaysOk "d1" emptyProgress).2.2 rfl

/-- C5: `download_full_song` performs at most two attempts; unauthenticated
(no cookie) runs make exactly one attempt and surface a failed attempt as an
`error` status immediately; authenticated runs retry exactly once, with the
relaxed cookie-less fallback options, and only when the first attempt
failed. -/
theorem download_retry_bounded (ca : Option String)
    (attempt : YdlOpts → Except String Unit) (id : String) (m : ProgressMap) :
    (download_full_song ca attempt id m).2.length ≤ 2 ∧
    (ca = none → (download_full_song ca attempt id m).2.length = 1) ∧
    (∀ e, ca = none → attempt (fallbackUpdate (baseOpts id)) = .error e →
      ((download_full_song ca attempt id m).1 id).map Progress.status =
        some (some "error")) ∧
    (∀ cf u, ca = some cf →
      attempt (authOpts id cf) = .ok u →
      (download_full_song ca attempt id m).2 = [authOpts id cf]) ∧
    (∀ cf e, ca = some cf →
      attempt (authOpts id cf) = .error e →
      (download_full_song ca attempt id m).2 =
        [authOpts id cf, fallbackUpdate (baseOpts id)]) := by
  have hcf : (fallbackUpdate (baseOpts id)).cookiefile = none := rfl
  have hac : ∀ cf : String, (authOpts id cf).cookiefile = some cf :=
    fun _ => rfl
  have hretry : ∀ cf : String,
      fallbackUpdate { authOpts id cf with cookiefile := none } =
        fallbackUpdate (baseOpts id) := fun _ => rfl
  refine ⟨?_, ?_, ?_, ?_, ?_⟩
  · unfold download_full_song
    cases ca with
    | none => cases h : attempt (fallbackUpdate (baseOpts id)) <;> simp [h, hcf]
    | some cf =>
      cases h1 : attempt (authOpts id cf) with
      | ok u => simp [h1]
      | error e =>
        cases h2 : attempt (fallbackUpdate (baseOpts id)) <;>
          simp [h1, hac, hretry, h2]
  · intro hca
    subst hca
    unfold download_full_song
    cases h : attempt (fallbackUpdate (baseOpts id)) <;> simp [h, hcf]
  · intro e hca h
    subst hca
    unfold download_full_song
    simp [h, hcf, setP]
  · intro cf u hca h
    subst hca
    unfold download_full_song
    simp [h]
  · intro cf e hca h
    subst hca
    unfold download_full_song
    cases h2 : attempt (fallbackUpdate (baseOpts id)) <;>
      simp [h, hac, hretry, h2]

/-- C5 witness: an unauthenticated run whose single attempt fails surfaces
the error immediately. -/
theorem download_retry_bounded_witness :
    ((download_full_song none alwaysFail "d1" emptyProgress).1 "d1").map
      Progress.status = some (some "error") :=
  (download_retry_bounded none alwaysFail "d1" emptyProgress).2.2.1
    "boom" rfl rfl

/-- C6 counterexample: `format_duration` drops the hour component — 3723000
milliseconds (1 h 2 min 3 s) renders as `"2:03"`, not `"1:02:03"`, and the
round-trip through the spec-modelled parser gives 123 seconds, not 3723. -/
theorem format_duration_hour_counterexample :
    format_duration 3723000 = "2:03" ∧
    format_duration 3723000 ≠ "1:02:03" ∧
    parse_duration (format_duration 3723000) = 123 := by
  decide

/-- C6 amended: `"3:45"` round-trips with 225 seconds, and the spec-modelled
parser maps `"1:02:03"` to 3723 seconds and malformed strings to 0 without
raising; but `format_duration` computes minutes modulo 60 and never emits an
hours field, so 3723000 ms renders as `"2:03"` and the round-trip fails for
durations of one hour or more. -/
theorem duration_roundtrip_amended :
    format_duration 225000 = "3:45" ∧
    parse_duration "3:45" = 225 ∧
    parse_duration "1:02:03" = 3723 ∧
    parse_duration "abc" = 0 ∧
    format_duration 3723000 = "2:03" := by
  decide

/-- C7: a fetch request whose URL strips to empty, and a download request
whose track id is missing or empty, get a 400 response with no upstream
call recorded. -/
theorem missing_id_returns_400 (b : FetchBody) (b2 : DlBody)
    (c : SpClient) (tid : Nat) :
    (pyStrip (b.url.getD "") = "" →
      fetch_spotify_data b c = (.json 400 "No URL provided", [])) ∧
    (b2.spotify_id.getD "" = "" →
      download_full_track b2 c tid = (.json 400 "No track ID provided", [])) := by
  constructor
  · intro h
    simp [fetch_spotify_data, h]
  · intro h
    simp [download_full_track, h]

/-- C7 witness: bodies with the field absent entirely get the 400 responses
and empty upstream-call lists. -/
theorem missing_id_returns_400_witness :
    fetch_spotify_data ⟨none⟩ stubClient = (.json 400 "No URL provided", []) ∧
    download_full_track ⟨none⟩ stubClient 0 =
      (.json 400 "No track ID provided", []) :=
  ⟨(missing_id_returns_400 ⟨none⟩ ⟨none⟩ stubClient 0).1 (by decide),
   (missing_id_returns_400 ⟨none⟩ ⟨none⟩ stubClient 0).2 (by decide)⟩

/-- The metadata phase always answers 200 or 500, whatever the upstream
oracle does. -/
theorem fetchMeta_code (t sid : String) (c : SpClient) :
    respCode (fetchMeta t sid c).1 ∈ ([200, 400, 500] : List Nat) := by
  unfold fetchMeta
  split
  · cases h : c.track sid with
    | error e => simp [respCode]
    | ok tr => cases h2 : c.album tr.album_id <;> simp [respCode, h2]
  · split
    · cases h : c.album sid with
      | error e => simp [respCode]
      | ok al => cases h2 : c.album_tracks sid <;> simp [respCode, h2]
    · cases h : c.playlist sid with
      | error e => simp [respCode]
      | ok pl => cases h2 : c.playlist_tracks sid <;> simp [respCode, h2]

/-- C8: no operation crashes — every route handler returns a response with a
known status code regardless of inputs and of upstream exceptions (the
catch-alls turn raised exceptions into 500 JSON errors), and the background
downloader always records a terminal `completed` or `error` status in the
progress store. -/
theorem handlers_total_typed_errors :
    (∀ (b : FetchBody) (c : SpClient),
      respCode (fetch_spotify_data b c).1 ∈ ([200, 400, 500] : List Nat)) ∧
    (∀ (b : DlBody) (c : SpClient) (tid : Nat),
      respCode (download_full_track b c tid).1 ∈ ([200, 400, 500] : List Nat)) ∧
    (∀ (id : String) (m : ProgressMap) (pe : String → Bool)
        (send : String → Except String Unit),
      respCode (download_file id m pe send).1 ∈
        ([200, 400, 404, 500] : List Nat)) ∧
    (∀ (ca : Option String) (attempt : YdlOpts → Except String Unit)
        (id : String) (m : ProgressMap),
      ((download_full_song ca attempt id m).1 id).map Progress.status =
          some (some "completed") ∨
      ((download_full_song ca attempt id m).1 id).map Progress.status =
          some (some "error")) := by
  refine ⟨?_, ?_, ?_, ?_⟩
  · intro b c
    simp only [fetch_spotify_data]
    split
    · simp [respCode]
    · split
      · simp [respCode]
      · split
        · simp [respCode]
        · exact fetchMeta_code _ _ _
  · intro b c tid
    simp only [download_full_track]
    split
    · simp [respCode]
    · split <;> simp [respCode]
  · intro id m pe send
    simp only [download_file]
    split
    · simp [respCode]
    · split
      · simp [respCode]
      · split <;> simp [respCode]
  · intro ca attempt id m
    have hcf : (fallbackUpdate (baseOpts id)).cookiefile = none := rfl
    have hac : ∀ cf : String, (authOpts id cf).cookiefile = some cf :=
      fun _ => rfl
    have hretry : ∀ cf : String,
        fallbackUpdate { authOpts id cf with cookiefile := none } =
          fallbackUpdate (baseOpts id) := fun _ => rfl
    cases ca with
    | none =>
      cases h : attempt (fallbackUpdate (baseOpts id)) with
      | ok u => left; simp [download_full_song, h, setP]
      | error e => right; simp [download_full_song, h, hcf, setP]
    | some cf =>
      cases h1 : attempt (authOpts id cf) with
      | ok u => left; simp [download_full_song, h1, setP]
      | error e =>
        cases h2 : attempt (fallbackUpdate (baseOpts id)) with
        | ok u =>
          left; simp [download_full_song, h1, hac, hretry, h2, setP]
        | error e2 =>
          right; simp [download_full_song, h1, hac, hretry, h2, setP]

/-- C9: a URL without `'spotify.com'` passes through `extract_spotify_id`
unchanged as a raw id; a URL containing `'spotify.com'` but lacking the
segment for the requested type yields `None`; and the fetch endpoint turns
that `None` into a 400 response with no upstream call. -/
theorem extract_passthrough_or_none (url t : String) (b : FetchBody)
    (c : SpClient) :
    (pyContains url "spotify.com" = false →
      extract_spotify_id url t = some url) ∧
    (pyContains url "spotify.com" = true →
      (t = "track" ∨ t = "album" ∨ t = "playlist") →
      (pySplit url ("/" ++ t ++ "/")).length ≤ 1 →
      extract_spotify_id url t = none) ∧
    (∀ t2, pyStrip (b.url.getD "") ≠ "" →
      detect_spotify_type (pyStrip (b.url.getD "")) = some t2 →
      extract_spotify_id (pyStrip (b.url.getD "")) t2 = none →
      fetch_spotify_data b c =
        (.json 400 "Could not extract Spotify ID from URL", [])) := by
  refine ⟨?_, ?_, ?_⟩
  · intro h
    simp [extract_spotify_id, h]
  · intro hc ht hlen
    rcases ht with rfl | rfl | rfl
    · have hl : (pySplit url "/track/").length ≤ 1 := hlen
      simp only [extract_spotify_id, hc, reduceIte]
      unfold segAfter
      cases h2 : pySplit url "/track/" with
      | nil => simp
      | cons a l =>
        cases l with
        | nil => simp
        | cons a2 l2 => rw [h2] at hl; simp at hl
    · have hl : (pySplit url "/album/").length ≤ 1 := hlen
      simp only [extract_spotify_id, hc, reduceIte]
      unfold segAfter
      cases h2 : pySplit url "/album/" with
      | nil => simp
      | cons a l =>
        cases l with
        | nil => simp
        | cons a2 l2 => rw [h2] at hl; simp at hl
    · have hl : (pySplit url "/playlist/").length ≤ 1 := hlen
      simp only [extract_spotify_id, hc, reduceIte]
      unfold segAfter
      cases h2 : pySplit url "/playlist/" with
      | nil => simp
      | cons a l =>
        cases l with
        | nil => simp
        | cons a2 l2 => rw [h2] at hl; simp at hl
  · intro t2 hne hdet hex
    simp [fetch_spotify_data, hne, hdet, hex]

/-- C9 witness: a raw id passes through; a `spotify.com` URL without a
`/track/` segment yields `None` for type `track`; and a URL detected as an
album but lacking `/album/` gets the 400 response with no upstream call. -/
theorem extract_passthrough_or_none_witness :
    extract_spotify_id "myRawId123" "track" = some "myRawId123" ∧
    extract_spotify_id "https://spotify.com/artist/xyz" "track" = none ∧
    fetch_spotify_data ⟨some "xspotify.com/albumX"⟩ stubClient =
      (.json 400 "Could not extract Spotify ID from URL", []) :=
  ⟨(extract_passthrough_or_none "myRawId123" "track" ⟨none⟩ stubClient).1
      (by decide),
   (extract_passthrough_or_none "https://spotify.com/artist/xyz" "track"
      ⟨none⟩ stubClient).2.1 (by decide) (Or.inl rfl) (by decide),
   (extract_passthrough_or_none "x" "x" ⟨some "xspotify.com/albumX"⟩
      stubClient).2.2 "album" (by decide) (by decide) (by decide)⟩

/-- C10: `download_file` leaves the progress store untouched on both error
responses (400 when the status is not `completed`, 404 when the file is
missing), and on the success path (status `completed` and file present) it
removes exactly the entry for the requested id, after which a progress query
for that id yields the empty object; a successful send delivers the file. -/
theorem download_file_lifecycle (id : String) (m : ProgressMap)
    (pe : String → Bool) (send : String → Except String Unit) :
    (((m id).getD {}).status ≠ some "completed" →
      download_file id m pe send = (.json 400 "Download not completed", m)) ∧
    (((m id).getD {}).status = some "completed" →
      pe (pyReplace (pyReplace (((m id).getD {}).filename.getD "")
        ".webm" ".mp3") ".m4a" ".mp3") = false →
      download_file id m pe send = (.json 404 "File not found", m)) ∧
    (((m id).getD {}).status = some "completed" →
      pe (pyReplace (pyReplace (((m id).getD {}).filename.getD "")
        ".webm" ".mp3") ".m4a" ".mp3") = true →
      ((download_file id m pe send).2 id = none ∧
       (∀ k, k ≠ id → (download_file id m pe send).2 k = m k) ∧
       get_download_progress id (download_file id m pe send).2 = none ∧
       (∀ u, send (pyReplace (pyReplace (((m id).getD {}).filename.getD "")
          ".webm" ".mp3") ".m4a" ".mp3") = .ok u →
        (download_file id m pe send).1 =
          .file (pyReplace (pyReplace (((m id).getD {}).filename.getD "")
            ".webm" ".mp3") ".m4a" ".mp3")))) := by
  refine ⟨?_, ?_, ?_⟩
  · intro h
    simp [download_file, h]
  · intro h1 h2
    simp [download_file, h1, h2]
  · intro h1 h2
    refine ⟨?_, ?_, ?_, ?_⟩
    · cases hs : send (pyReplace (pyReplace (((m id).getD {}).filename.getD "")
          ".webm" ".mp3") ".m4a" ".mp3") <;>
        simp [download_file, h1, h2, hs]
    · intro k hk
      cases hs : send (pyReplace (pyReplace (((m id).getD {}).filename.getD "")
          ".webm" ".mp3") ".m4a" ".mp3") <;>
        simp [download_file, h1, h2, hs, hk]
    · cases hs : send (pyReplace (pyReplace (((m id).getD {}).filename.getD "")
          ".webm" ".mp3") ".m4a" ".mp3") <;>
        simp [get_download_progress, download_file, h1, h2, hs]
    · intro u hs
      simp [download_file, h1, h2, hs]

/-- C10 witness: on the completed sample store with the file present and a
successful send, the entry for `"d1"` is removed, other keys are untouched,
a progress query returns the empty object, and the converted `.mp3` file is
delivered. -/
theorem download_file_lifecycle_witness :
    (download_file "d1" sampleStore (fun _ => true)
      (fun _ => Except.ok ())).2 "d1" = none ∧
    (download_file "d1" sampleStore (fun _ => true)
      (fun _ => Except.ok ())).2 "d2" = sampleStore "d2" ∧
    get_download_progress "d1" (download_file "d1" sampleStore (fun _ => true)
      (fun _ => Except.ok ())).2 = none ∧
    (download_file "d1" sampleStore (fun _ => true)
      (fun _ => Except.ok ())).1 = .file "/tmp/d1_song.mp3" := by
  obtain ⟨ha, hb, hc, hd⟩ :=
    (download_file_lifecycle "d1" sampleStore (fun _ => true)
      (fun _ => Except.ok ())).2.2 (by decide) rfl
  exact ⟨ha, hb "d2" (by decide), hc, (hd () rfl).trans (by decide)⟩

end SpotiDL
